import Mathlib

/-!
Shallow embedding of the ThrashTracker sequencing and voice-management core
(src/components/Sequencer.tsx, src/audio/AudioEngine.ts, src/midi/MidiController.ts).

Conventions of the embedding:
* JS numbers that only ever hold integers are Nat or Int; the MIDI velocity
  delivered by the MIDI layer (a normalized 0..1 value) and the BPM-derived
  step duration are rationals, mirroring the exact arithmetic the code performs
  on them (the claims under verification do not depend on float rounding).
* JS `%` on possibly-negative integers is truncated remainder, `Int.tmod`;
  `Math.floor` of an integer quotient is floor division, `Int.fdiv`.
* JS `Map.get(k) || 0` is modelled as a total function with default 0.
* Side effects (calls into the synthesis backend, the pattern-change callback)
  are modelled as explicit event lists returned next to the updated state.
-/

/-- Step cell of the grid, mirroring the `Step` interface of Sequencer.tsx:
`note` optional MIDI pitch, `velocity` 0-127, `instrument` track index,
`active` gate. -/
structure Step where
  note : Option Nat
  velocity : Nat
  instrument : Nat
  active : Bool
deriving DecidableEq, Repr

/-- Number of steps per track (NUM_STEPS in Sequencer.tsx). -/
def NUM_STEPS : Nat := 16

/-- Number of tracks (NUM_TRACKS in Sequencer.tsx). -/
def NUM_TRACKS : Nat := 8

/-- The cell every pattern is initialized with in the Sequencer's useState
initializer: note null, velocity 100, instrument 0, inactive. -/
def defaultStep : Step :=
  { note := none, velocity := 100, instrument := 0, active := false }

/-- A pattern of the bank, mirroring the `Pattern` interface. -/
structure Pattern where
  id : String
  name : String
  steps : List (List Step)
deriving DecidableEq, Repr

/-- Hexadecimal id tag, mirroring
`` `000x${i.toString(16).toUpperCase().padStart(2, '0')}` ``. -/
def hexId (i : Nat) : String :=
  let ds := (Nat.toDigits 16 i).map Char.toUpper
  let padded := List.replicate (2 - ds.length) '0' ++ ds
  "000x" ++ String.mk padded

/-- The 255 preallocated empty patterns 000x01 .. 000xFF built by the
useState initializer of Sequencer.tsx. -/
def defaultPatterns : List Pattern :=
  (List.range 255).map (fun k =>
    let i := k + 1
    { id := hexId i
      name := hexId i
      steps := List.replicate NUM_TRACKS (List.replicate NUM_STEPS defaultStep) })

/-- Fallback value standing for JS `undefined` when a pattern list is indexed
out of range (never reached on the real 255-element bank). -/
def emptyPattern : Pattern :=
  { id := "", name := "", steps := [] }

/-- Pattern lookup, mirroring
`patterns.find(p => p.id === currentPattern) || patterns[0]` (Sequencer.tsx
line 66). There is no failure path: a miss falls back to the first pattern. -/
def activePattern (patterns : List Pattern) (currentPattern : String) : Pattern :=
  (patterns.find? (fun p => p.id == currentPattern)).getD (patterns.getD 0 emptyPattern)

/-- Map with index, the meaning of JS `array.map((x, idx) => f(idx, x))`
starting from a given index. -/
def jsMapIdx (f : Nat → α → β) : Nat → List α → List β
  | _, [] => []
  | i, a :: as => f i a :: jsMapIdx f (i + 1) as

/-- JS `array.map((x, idx) => f(idx, x))`. -/
def jsMap (f : Nat → α → β) (l : List α) : List β :=
  jsMapIdx f 0 l

/-- The `toggleStep` update applied to one pattern of the bank: flip `active`
of cell (track, step), leaving every other field and cell alone
(Sequencer.tsx lines 130-146, inner `pattern.steps.map`). -/
def toggleStepPattern (p : Pattern) (track step : Nat) : Pattern :=
  { p with
    steps := jsMap (fun tIdx t =>
      if tIdx = track then
        jsMap (fun sIdx s =>
          if sIdx = step then { s with active := !s.active } else s) t
      else t) p.steps }

/-- Bank-level `toggleStep(patternId, track, step)`: rewrite the pattern whose
id matches, keep all others. -/
def toggleStep (patterns : List Pattern) (currentPattern : String)
    (track step : Nat) : List Pattern :=
  patterns.map (fun pattern =>
    if pattern.id == currentPattern then toggleStepPattern pattern track step
    else pattern)

/-- The `setStepNote` update applied to one pattern: replace the `note` of
cell (track, step) (Sequencer.tsx lines 148-164). -/
def setStepNotePattern (p : Pattern) (track step : Nat) (note : Option Nat) : Pattern :=
  { p with
    steps := jsMap (fun tIdx t =>
      if tIdx = track then
        jsMap (fun sIdx s =>
          if sIdx = step then { s with note := note } else s) t
      else t) p.steps }

/-- Cell accessor: `pattern.steps[track][step]`, total via defaults. -/
def cellOf (p : Pattern) (track step : Nat) : Step :=
  (p.steps.getD track []).getD step defaultStep

/-- Duration of one sixteenth-note tick in milliseconds:
`(60 / bpm / 4) * 1000` (Sequencer.tsx line 105). -/
def stepDuration (bpm : ℚ) : ℚ :=
  60 / bpm / 4 * 1000

/-- A call the playback loop issues to `audioEngine.triggerNote`. -/
structure TickTrigger where
  note : Nat
  velocity : Nat
  track : Nat
  duration : ℚ
deriving DecidableEq, Repr

/-- The guarded trigger for one cell of the fired column:
`if (step.active && step.note !== null) audioEngine.triggerNote(...)`
(Sequencer.tsx lines 113-120). -/
def cellTrigger (bpm : ℚ) (trackIndex : Nat) (s : Step) : Option TickTrigger :=
  if s.active && s.note.isSome then
    some { note := s.note.getD 0
           velocity := s.velocity
           track := trackIndex
           duration := stepDuration bpm }
  else none

/-- All triggers issued for step column `next` of a pattern in one tick:
the `activePattern.steps.forEach((trackSteps, trackIndex) => ...)` loop. -/
def tickTriggers (p : Pattern) (bpm : ℚ) (next : Nat) : List TickTrigger :=
  (jsMap (fun trackIndex trackSteps =>
    cellTrigger bpm trackIndex (trackSteps.getD next defaultStep)) p.steps).reduceOption

/-- One interval callback of the playback loop: advance
`currentStep = (prev + 1) % NUM_STEPS` and fire the cells of the new column
(Sequencer.tsx lines 106-125). -/
def tick (p : Pattern) (bpm : ℚ) (prev : Nat) : Nat × List TickTrigger :=
  ((prev + 1) % NUM_STEPS, tickTriggers p bpm ((prev + 1) % NUM_STEPS))

/-- The playback effect's action on `currentStep`: when not playing it resets
the step to 0, otherwise it leaves it alone (Sequencer.tsx lines 100-103). -/
def playbackEffectStep (isPlaying : Bool) (current : Nat) : Nat :=
  if isPlaying then current else 0

/-- The four synthesis kinds accepted by `AudioEngine.triggerNote`. -/
inductive SynthType where
  | fm
  | subtractive
  | drum
  | sampler
deriving DecidableEq, Repr

/-- A call into a backend voice's `triggerAttackRelease`, identified by the
track and the pool slot of the voice it lands on. The frequency and
normalized-velocity conversions performed just before the backend call are
arguments to the external collaborator and carry no allocator state, so the
event records the raw MIDI note and 0-127 velocity instead. -/
structure NoteEvent where
  track : Int
  voiceIndex : Nat
  note : Nat
  velocity : Int
  duration : Nat
deriving DecidableEq, Repr

/-- AudioEngine state: the `initialized` flag, the Tone.Transport bpm and
running flag, the per-track round-robin cursor map (`voicePool`, default 0 as
in `this.voicePool.get(track) || 0`), and which tracks have a loaded sampler
(the `samplers` map is empty until `loadSample`). -/
structure EngineState where
  initialized : Bool
  transportBpm : Int
  transportRunning : Bool
  voicePool : Int → Nat
  samplerLoaded : Int → Bool

/-- The engine as constructed: not initialized, every cursor 0 (the
constructor sets tracks 0-7 to 0; absent keys read as 0 via `|| 0`), no
samplers; Tone.Transport defaults to 120 bpm, stopped. -/
def newEngine : EngineState :=
  { initialized := false
    transportBpm := 120
    transportRunning := false
    voicePool := fun _ => 0
    samplerLoaded := fun _ => false }

/-- The state change of `AudioEngine.initialize`: early-return when already
initialized, otherwise install the synth pools and set the flag. The pools
themselves are reflected by `melodicPoolLen` below. -/
def initEngine (st : EngineState) : EngineState :=
  if st.initialized then st else { st with initialized := true }

/-- Number of voices `fmSynths.get(track)` (equally `subtractiveSynths`) holds
once the engine is initialized: `maxVoicesPerTrack = 4` for tracks 0-7, and 0
(the `|| []` fallback) for any other key. -/
def melodicPoolLen (track : Int) : Nat :=
  if 0 ≤ track ∧ track < 8 then 4 else 0

/-- The 'fm' and 'subtractive' cases of `triggerNote` (AudioEngine lines
477-509), which are textually identical up to the pool map read and both use
4-slot pools and the shared `voicePool` cursor:
`voiceIndex = (voicePool.get(track) || 0) % voices.length`, trigger the voice
at that slot, then `voicePool.set(track, voiceIndex + 1)`. An empty pool
(track outside 0-7: `voices.length` is 0, the JS index is NaN) triggers
nothing and leaves the cursor alone. -/
def melodicTrigger (st : EngineState) (note : Nat) (velocity : Int)
    (track : Int) (duration : Nat) : EngineState × List NoteEvent :=
  if melodicPoolLen track = 0 then (st, [])
  else
    ({ st with voicePool := fun t =>
        if t = track then st.voicePool track % melodicPoolLen track + 1
        else st.voicePool t },
     [{ track := track, voiceIndex := st.voicePool track % melodicPoolLen track,
        note := note, velocity := velocity, duration := duration }])

/-- `AudioEngine.triggerNote` (lines 463-546): a silent no-op before
initialization; otherwise dispatch on the synth kind. The 'drum' case fires
the single per-track drum synth (tracks 0-7, membrane below 4 and noise from
4 up — a backend detail) and never touches the cursor; the 'sampler' case
fires only if `loadSample` has installed a sampler for the track. -/
def triggerNote (st : EngineState) (note : Nat) (velocity : Int) (track : Int)
    (duration : Nat) (synthType : SynthType) : EngineState × List NoteEvent :=
  if st.initialized then
    match synthType with
    | .fm => melodicTrigger st note velocity track duration
    | .subtractive => melodicTrigger st note velocity track duration
    | .drum =>
        (st, if 0 ≤ track ∧ track < 8 then
          [{ track := track, voiceIndex := 0, note := note,
             velocity := velocity, duration := duration }] else [])
    | .sampler =>
        (st, if st.samplerLoaded track then
          [{ track := track, voiceIndex := 0, note := note,
             velocity := velocity, duration := duration }] else [])
  else (st, [])

/-- `AudioEngine.start(bpm = 120)` (lines 432-438): initialize if needed, then
set `Tone.Transport.bpm.value = bpm` and start the transport. No validation is
performed and no error is produced. -/
def start (st : EngineState) (bpm : Int) : EngineState :=
  let st1 := if st.initialized then st else initEngine st
  { st1 with transportBpm := bpm, transportRunning := true }

/-- `AudioEngine.stop` (lines 443-446): stop the transport and cancel pending
events. -/
def stop (st : EngineState) : EngineState :=
  { st with transportRunning := false }

/-- `AudioEngine.setBpm` (lines 451-453): assign the transport bpm, with no
validation and no other state change. -/
def setBpm (st : EngineState) (bpm : Int) : EngineState :=
  { st with transportBpm := bpm }

/-- Iterate `triggerNote` k times with the same arguments, keeping the state. -/
def triggerIter (note : Nat) (velocity : Int) (track : Int) (duration : Nat)
    (synthType : SynthType) (st : EngineState) : Nat → EngineState
  | 0 => st
  | k + 1 =>
      (triggerNote (triggerIter note velocity track duration synthType st k)
        note velocity track duration synthType).1

/-- The backend calls emitted by the k-th (1-based) of a run of consecutive
`triggerNote` calls with the same arguments. -/
def callEvents (note : Nat) (velocity : Int) (track : Int) (duration : Nat)
    (synthType : SynthType) (st : EngineState) (k : Nat) : List NoteEvent :=
  (triggerNote (triggerIter note velocity track duration synthType st (k - 1))
    note velocity track duration synthType).2

/-- Truncated remainder, the meaning of the JS `%` operator on integers. -/
def jsRem (a b : Int) : Int := Int.tmod a b

/-- MIDI-note-to-track mapping of `MidiController.handleNoteOn`:
`Math.floor((note - 36) / 12) % 8` with JS semantics (floor division, then
truncated remainder, which is negative for notes below 36). -/
def noteToTrack (note : Nat) : Int :=
  jsRem (Int.fdiv ((note : Int) - 36) 12) 8

/-- The arguments `handleNoteOn` forwards to `audioEngine.triggerNote`. -/
structure TriggerCall where
  note : Nat
  velocity : Int
  track : Int
  duration : Nat
  synthType : SynthType
deriving DecidableEq, Repr

/-- `MidiController.handleNoteOn` (lines 757-775): compute the track,
denormalize the 0..1 velocity with `Math.floor(velocity * 127)`, and forward
to `triggerNote` with a fixed 500 ms duration and the 'fm' kind. -/
def handleNoteOn (note : Nat) (velocity : ℚ) : TriggerCall :=
  { note := note
    velocity := Int.floor (velocity * 127)
    track := noteToTrack note
    duration := 500
    synthType := .fm }

/-- Lower bound of the CC range accepted for pattern switching. -/
def PATTERN_CC_START : Nat := 0

/-- Upper bound of the CC range accepted for pattern switching. -/
def PATTERN_CC_END : Nat := 255

/-- Pattern-switching state of the MidiController: the currently active
pattern id (initially 000x01). Callback invocations are reported as an event
list by `handleControlChange`. -/
structure MidiState where
  currentPattern : String
deriving DecidableEq, Repr

/-- `MidiController.handleControlChange` (lines 790-811): for a controller
number within the accepted range, compute `patternIndex = value + 1` and its
hex tag; if it differs from the current pattern, store it and invoke the
pattern callback once, otherwise do nothing. -/
def handleControlChange (st : MidiState) (cc value : Nat) : MidiState × List String :=
  if PATTERN_CC_START ≤ cc ∧ cc ≤ PATTERN_CC_END then
    let hexPattern := hexId (value + 1)
    if hexPattern ≠ st.currentPattern then
      ({ currentPattern := hexPattern }, [hexPattern])
    else (st, [])
  else (st, [])

/-- A pattern whose only sounding cell is track 0, step 0 (note 60, velocity
100); all other cells are the default inactive cell. -/
def hitStep : Step :=
  { note := some 60, velocity := 100, instrument := 0, active := true }

/-- Concrete pattern used to exercise the playback loop: the grid of 000x01
with cell (0,0) switched on and given note 60. -/
def patternWithHit : Pattern :=
  { id := "000x01"
    name := "000x01"
    steps := (hitStep :: List.replicate 15 defaultStep) ::
      List.replicate 7 (List.replicate 16 defaultStep) }

/-- On the pattern whose only sounding cell sits at step 0, the first tick
after the stop-reset (currentStep = 0) fires nothing, although step 0's
column has a sounding cell: the first post-restart tick does not fire step
index 0's row. -/
theorem C1_counterexample :
    playbackEffectStep false 9 = 0 ∧
    (tick patternWithHit 120 0).2 = [] ∧
    tickTriggers patternWithHit 120 0 ≠ [] := by
  decide

/-- C1 (amended): stopping resets `currentStep` to 0 whatever it was, and the
first post-restart tick advances to step index 1 and fires exactly step index
1's column — not step index 0's, and not the column after the last pre-stop
index. -/
theorem C1_amended (p : Pattern) (bpm : ℚ) (s : Nat) :
    playbackEffectStep false s = 0 ∧
    (tick p bpm (playbackEffectStep false s)).1 = 1 ∧
    (tick p bpm (playbackEffectStep false s)).2 = tickTriggers p bpm 1 :=
  ⟨rfl, rfl, rfl⟩

/-- For notes below 36 the JS `%` operator leaves the track negative: note 0
is routed to track -3, which is not in [0,7]. -/
theorem C2_counterexample :
    (handleNoteOn 0 1).track = -3 ∧
    ¬ (0 ≤ (handleNoteOn 0 1).track) := by
  decide

/-- The track computation lands in [0,7] for notes from 36 up. -/
theorem noteToTrack_of_ge (note : Nat) (h36 : 36 ≤ note) (h127 : note ≤ 127) :
    noteToTrack note = Int.fdiv ((note : Int) - 36) 12 ∧
    0 ≤ noteToTrack note ∧ noteToTrack note ≤ 7 := by
  have hfd : Int.fdiv ((note : Int) - 36) 12 = ((note : Int) - 36) / 12 :=
    Int.fdiv_eq_ediv _ (by norm_num)
  have hq0 : 0 ≤ ((note : Int) - 36) / 12 := by omega
  have hq7 : ((note : Int) - 36) / 12 ≤ 7 := by omega
  have ht : noteToTrack note = ((note : Int) - 36) / 12 := by
    unfold noteToTrack jsRem
    rw [hfd, Int.tmod_eq_of_lt hq0 (by omega)]
  exact ⟨by rw [ht, hfd], by rw [ht]; exact hq0, by rw [ht]; exact hq7⟩

/-- C2 (amended): for MIDI notes in [36,127] the router's track is
`floor((note - 36) / 12)`, which lies in [0,7] (note 36 maps to track 0 and
each octave steps to the next track; within the MIDI range the quotient never
exceeds 7, so the mod-8 wrap never engages); for notes below 36 the JS
remainder makes the computed track negative, so the result is not always in
[0,7]. Every note-on is forwarded to the allocator's trigger with a fixed
500 ms duration and the FM kind. -/
theorem C2_amended (note : Nat) (v : ℚ) (h36 : 36 ≤ note) (h127 : note ≤ 127) :
    (handleNoteOn note v).track = Int.fdiv ((note : Int) - 36) 12 ∧
    0 ≤ (handleNoteOn note v).track ∧
    (handleNoteOn note v).track ≤ 7 ∧
    (handleNoteOn 36 v).track = 0 ∧
    (note + 12 ≤ 127 →
      (handleNoteOn (note + 12) v).track = (handleNoteOn note v).track + 1) ∧
    (handleNoteOn note v).duration = 500 ∧
    (handleNoteOn note v).synthType = .fm := by
  obtain ⟨e1, e2, e3⟩ := noteToTrack_of_ge note h36 h127
  refine ⟨e1, e2, e3, (show noteToTrack 36 = 0 by decide), ?_, rfl, rfl⟩
  intro h12
  obtain ⟨f1, _, _⟩ := noteToTrack_of_ge (note + 12) (by omega) h12
  show noteToTrack (note + 12) = noteToTrack note + 1
  have h12nn : (0 : Int) ≤ 12 := by norm_num
  rw [f1, e1, Int.fdiv_eq_ediv _ h12nn, Int.fdiv_eq_ediv _ h12nn]
  push_cast
  omega

/-- Witness for C2_amended at note 60, velocity 1. -/
theorem C2_witness :
    (handleNoteOn 60 1).track = Int.fdiv (((60 : Nat) : Int) - 36) 12 ∧
    0 ≤ (handleNoteOn 60 1).track ∧
    (handleNoteOn 60 1).track ≤ 7 ∧
    (handleNoteOn 36 1).track = 0 ∧
    (60 + 12 ≤ 127 →
      (handleNoteOn (60 + 12) 1).track = (handleNoteOn 60 1).track + 1) ∧
    (handleNoteOn 60 1).duration = 500 ∧
    (handleNoteOn 60 1).synthType = .fm :=
  C2_amended 60 1 (by norm_num) (by norm_num)

/-- Starting the clock at bpm 300 (outside [60,200]) is not rejected: the
transport bpm becomes 300 and the transport starts; likewise `setBpm 13`
takes effect. -/
theorem C3_counterexample :
    (start newEngine 300).transportBpm = 300 ∧
    (start newEngine 300).transportRunning = true ∧
    (setBpm newEngine 13).transportBpm = 13 := by
  decide

/-- C3 (amended): neither `start` nor `setBpm` validates the BPM: for every
bpm value, in range or not, `start` unconditionally assigns the transport bpm
and starts the transport, and `setBpm` unconditionally assigns the bpm with
no other state change. No InvalidArgument rejection path exists. -/
theorem C3_amended (st : EngineState) (bpm : Int) :
    (start st bpm).transportBpm = bpm ∧
    (start st bpm).transportRunning = true ∧
    (setBpm st bpm).transportBpm = bpm ∧
    (setBpm st bpm).transportRunning = st.transportRunning ∧
    (setBpm st bpm).initialized = st.initialized :=
  ⟨rfl, rfl, rfl, rfl, rfl⟩

/-- C9: a trigger issued before the engine is initialized returns the state
unchanged (every cursor included) and emits no backend call, for every synth
kind and argument. -/
theorem C9_uninit_noop (st : EngineState) (note : Nat) (velocity : Int)
    (track : Int) (duration : Nat) (synthType : SynthType)
    (h : st.initialized = false) :
    triggerNote st note velocity track duration synthType = (st, []) := by
  simp [triggerNote, h]

/-- Witness for C9_uninit_noop on the freshly constructed engine. -/
theorem C9_witness :
    triggerNote newEngine 60 100 0 500 .fm = (newEngine, []) :=
  C9_uninit_noop newEngine 60 100 0 500 .fm rfl

/-- C10: the playback loop's per-cell guard fires exactly when the cell has
both `active = true` and a non-null note; in particular a cell that is active
but pitchless (note null) triggers nothing. -/
theorem C10_pitchless_silent (bpm : ℚ) (i : Nat) (s : Step) :
    (cellTrigger bpm i s).isSome = (s.active && s.note.isSome) ∧
    cellTrigger bpm i { s with note := none, active := true } = none := by
  constructor
  · by_cases h : (s.active && s.note.isSome) = true
    · simp [cellTrigger, h]
    · simp only [Bool.not_eq_true] at h
      simp [cellTrigger, h]
  · simp [cellTrigger]

set_option maxRecDepth 40000 in
/-- Looking up the out-of-range id 000x00 does not fail: `activePattern`
returns the fallback `patterns[0]`, whose id is 000x01. -/
theorem C4_counterexample :
    (activePattern defaultPatterns "000x00").id = "000x01" := by
  decide

/-- C4 (amended): there is no NotFound failure path. For every id that
matches no pattern of the bank — every id outside 000x01..000xFF included —
the lookup `patterns.find(...) || patterns[0]` falls back to the first
pattern, whose id is 000x01. -/
theorem C4_amended (id : String) (h : ∀ p ∈ defaultPatterns, p.id ≠ id) :
    (activePattern defaultPatterns id).id = "000x01" := by
  have hf : defaultPatterns.find? (fun p => p.id == id) = none := by
    rw [List.find?_eq_none]
    intro p hp
    simpa using h p hp
  unfold activePattern
  rw [hf]
  rfl

set_option maxRecDepth 40000 in
/-- Witness for C4_amended at the out-of-range id 000x100. -/
theorem C4_witness :
    (activePattern defaultPatterns "000x100").id = "000x01" :=
  C4_amended "000x100" (by decide)

/-- Index access commutes with `jsMapIdx`. -/
theorem jsMapIdx_getD (f : Nat → α → β) (l : List α) (start i : Nat)
    (d : α) (e : β) (h : i < l.length) :
    (jsMapIdx f start l).getD i e = f (start + i) (l.getD i d) := by
  induction l generalizing start i with
  | nil => simp at h
  | cons a as ih =>
    cases i with
    | zero => simp [jsMapIdx]
    | succ j =>
        have hj : j < as.length := by simpa using h
        have := ih (start + 1) j hj
        simpa [jsMapIdx, Nat.add_assoc, Nat.add_comm 1 j] using this

/-- `jsMapIdx` preserves length. -/
theorem jsMapIdx_length (f : Nat → α → β) (l : List α) (start : Nat) :
    (jsMapIdx f start l).length = l.length := by
  induction l generalizing start with
  | nil => rfl
  | cons a as ih => simp [jsMapIdx, ih]

/-- `toggleStepPattern` preserves the number of tracks. -/
theorem toggle_steps_length (p : Pattern) (track step : Nat) :
    (toggleStepPattern p track step).steps.length = p.steps.length := by
  simp [toggleStepPattern, jsMap, jsMapIdx_length]

/-- `toggleStepPattern` preserves the length of the edited track. -/
theorem toggle_row_length (p : Pattern) (track step : Nat)
    (ht : track < p.steps.length) :
    ((toggleStepPattern p track step).steps.getD track []).length
      = (p.steps.getD track []).length := by
  have := jsMapIdx_getD (fun tIdx t =>
    if tIdx = track then
      jsMap (fun sIdx s =>
        if sIdx = step then { s with active := !s.active } else s) t
    else t) p.steps 0 track [] [] ht
  simp only [toggleStepPattern, jsMap, Nat.zero_add] at this ⊢
  rw [this]
  simp [jsMap, jsMapIdx_length]

/-- Effect of `toggleStepPattern` on the toggled cell. -/
theorem cellOf_toggle (p : Pattern) (track step : Nat)
    (ht : track < p.steps.length) (hs : step < (p.steps.getD track []).length) :
    cellOf (toggleStepPattern p track step) track step
      = { cellOf p track step with active := !(cellOf p track step).active } := by
  unfold cellOf toggleStepPattern
  simp only [jsMap]
  rw [jsMapIdx_getD _ p.steps 0 track [] [] ht]
  simp only [Nat.zero_add, eq_self_iff_true, if_true]
  rw [jsMapIdx_getD _ (p.steps.getD track []) 0 step defaultStep defaultStep hs]
  simp

/-- C7: toggling a cell flips its `active` flag and leaves its `note` and
`velocity` untouched, and toggling the same cell twice restores the cell
exactly. -/
theorem C7_toggle_roundtrip (p : Pattern) (track step : Nat)
    (ht : track < p.steps.length) (hs : step < (p.steps.getD track []).length) :
    (cellOf (toggleStepPattern p track step) track step).active
      = !(cellOf p track step).active ∧
    (cellOf (toggleStepPattern p track step) track step).note
      = (cellOf p track step).note ∧
    (cellOf (toggleStepPattern p track step) track step).velocity
      = (cellOf p track step).velocity ∧
    cellOf (toggleStepPattern (toggleStepPattern p track step) track step)
      track step = cellOf p track step := by
  have h1 := cellOf_toggle p track step ht hs
  have ht2 : track < (toggleStepPattern p track step).steps.length := by
    rw [toggle_steps_length]; exact ht
  have hs2 : step < ((toggleStepPattern p track step).steps.getD track []).length := by
    rw [toggle_row_length p track step ht]; exact hs
  have h2 := cellOf_toggle (toggleStepPattern p track step) track step ht2 hs2
  rw [h1] at h2
  refine ⟨by rw [h1], by rw [h1], by rw [h1], ?_⟩
  rw [h2]
  cases cellOf p track step
  simp

/-- Witness for C7_toggle_roundtrip at cell (0,0) of the concrete pattern. -/
theorem C7_witness :
    (cellOf (toggleStepPattern patternWithHit 0 0) 0 0).active
      = !(cellOf patternWithHit 0 0).active ∧
    (cellOf (toggleStepPattern patternWithHit 0 0) 0 0).note
      = (cellOf patternWithHit 0 0).note ∧
    (cellOf (toggleStepPattern patternWithHit 0 0) 0 0).velocity
      = (cellOf patternWithHit 0 0).velocity ∧
    cellOf (toggleStepPattern (toggleStepPattern patternWithHit 0 0) 0 0) 0 0
      = cellOf patternWithHit 0 0 :=
  C7_toggle_roundtrip patternWithHit 0 0 (by decide) (by decide)

/-- Cursor evolution over consecutive fm triggers on one in-range track of an
initialized engine: each call stores slot + 1, so after k calls the cursor
holds `(c % 4 + (k - 1)) % 4 + 1`, where c is the starting cursor. -/
theorem melodic_cursor_iter (note : Nat) (velocity : Int) (track : Int)
    (duration : Nat) (st : EngineState) (k : Nat)
    (hinit : st.initialized = true) (h0 : 0 ≤ track) (h8 : track < 8) :
    (triggerIter note velocity track duration .fm st k).initialized = true ∧
    (triggerIter note velocity track duration .fm st k).voicePool track
      = if k = 0 then st.voicePool track
        else (st.voicePool track % 4 + (k - 1)) % 4 + 1 := by
  induction k with
  | zero => exact ⟨hinit, by simp [triggerIter]⟩
  | succ k ih =>
      obtain ⟨ihInit, ihCur⟩ := ih
      have hlen : melodicPoolLen track = 4 := by
        simp [melodicPoolLen, h0, h8]
      have hstep : triggerIter note velocity track duration .fm st (k + 1)
          = (melodicTrigger (triggerIter note velocity track duration .fm st k)
              note velocity track duration).1 := by
        simp [triggerIter, triggerNote, ihInit]
      rw [hstep]
      constructor
      · simp [melodicTrigger, hlen]
        exact ihInit
      · simp only [melodicTrigger, hlen]
        norm_num
        rw [ihCur]
        by_cases hk : k = 0
        · subst hk
          simp
        · simp only [if_neg hk, if_neg (Nat.succ_ne_zero k)]
          omega

/-- After exactly 4 fm triggers on track 0 of a freshly initialized engine the
stored cursor is 4, while triggerCount mod poolSize is 4 mod 4 = 0: the
stored cursor is not `triggerCount mod poolSize`. -/
theorem C5_counterexample :
    (triggerIter 60 100 0 500 .fm (initEngine newEngine) 4).voicePool 0 = 4 ∧
    (4 : Nat) % 4 = 0 ∧
    (triggerIter 60 100 0 500 .fm (initEngine newEngine) 4).voicePool 0 ≠ 4 % 4 := by
  decide

/-- C5 (amended): on an initialized engine, for a melodic (fm) pool on an
in-range track whose cursor starts at 0, after k ≥ 1 triggers the stored
cursor is `((k - 1) mod 4) + 1` — congruent to k modulo the pool size 4, but
ranging over [1,4] rather than equalling `k mod 4`; percussive (drum) and
sampler triggers leave the cursor untouched. -/
theorem C5_amended (note : Nat) (velocity : Int) (track : Int)
    (duration k : Nat) (st : EngineState) (hinit : st.initialized = true)
    (h0 : 0 ≤ track) (h8 : track < 8) (hc : st.voicePool track = 0)
    (hk : 1 ≤ k) :
    (triggerIter note velocity track duration .fm st k).voicePool track
      = (k - 1) % 4 + 1 ∧
    (triggerIter note velocity track duration .fm st k).voicePool track % 4
      = k % 4 ∧
    (triggerNote st note velocity track duration .drum).1.voicePool track
      = st.voicePool track ∧
    (triggerNote st note velocity track duration .sampler).1.voicePool track
      = st.voicePool track := by
  obtain ⟨_, hcur⟩ := melodic_cursor_iter note velocity track duration st k hinit h0 h8
  have hk0 : ¬ (k = 0) := by omega
  rw [hcur, if_neg hk0, hc]
  refine ⟨by omega, by omega, ?_, ?_⟩
  · simp [triggerNote, hinit, hc]
  · simp [triggerNote, hinit, hc]

/-- Witness for C5_amended: 5 triggers on track 0 of the initialized engine. -/
theorem C5_witness :
    (triggerIter 60 100 0 500 .fm (initEngine newEngine) 5).voicePool 0
      = (5 - 1) % 4 + 1 ∧
    (triggerIter 60 100 0 500 .fm (initEngine newEngine) 5).voicePool 0 % 4
      = 5 % 4 ∧
    (triggerNote (initEngine newEngine) 60 100 0 500 .drum).1.voicePool 0
      = (initEngine newEngine).voicePool 0 ∧
    (triggerNote (initEngine newEngine) 60 100 0 500 .sampler).1.voicePool 0
      = (initEngine newEngine).voicePool 0 :=
  C5_amended 60 100 0 500 5 (initEngine newEngine) rfl (by norm_num)
    (by norm_num) rfl (by norm_num)

/-- The backend call emitted by the k-th of a run of fm triggers: exactly one
voice fires, at slot `(c % 4 + (k - 1)) % 4` for starting cursor c. -/
theorem callEvents_fm (note : Nat) (velocity : Int) (track : Int)
    (duration : Nat) (st : EngineState) (k : Nat)
    (hinit : st.initialized = true) (h0 : 0 ≤ track) (h8 : track < 8)
    (hk : 1 ≤ k) :
    callEvents note velocity track duration .fm st k
      = [{ track := track,
           voiceIndex := (st.voicePool track % 4 + (k - 1)) % 4,
           note := note, velocity := velocity, duration := duration }] := by
  obtain ⟨pInit, pCur⟩ :=
    melodic_cursor_iter note velocity track duration st (k - 1) hinit h0 h8
  have hlen : melodicPoolLen track = 4 := by
    simp [melodicPoolLen, h0, h8]
  unfold callEvents
  simp [triggerNote, pInit, melodicTrigger, hlen]
  rw [pCur]
  by_cases hk1 : k - 1 = 0
  · rw [if_pos hk1]
    have : k = 1 := by omega
    subst this
    omega
  · rw [if_neg hk1]
    omega

/-- C6: on an initialized engine, allocation on an in-range track is cyclic
with period 4 (the fm pool size): the k-th call fires the single voice at
slot `(cursor % 4 + (k-1)) % 4` and stores that slot + 1 back as the cursor,
and call 1 and call 4 + 1 of a run fire the same voice handle. -/
theorem C6_cyclic (note : Nat) (velocity : Int) (track : Int)
    (duration : Nat) (st : EngineState) (k : Nat)
    (hinit : st.initialized = true) (h0 : 0 ≤ track) (h8 : track < 8)
    (hk : 1 ≤ k) :
    callEvents note velocity track duration .fm st k
      = [{ track := track,
           voiceIndex := (st.voicePool track % 4 + (k - 1)) % 4,
           note := note, velocity := velocity, duration := duration }] ∧
    (triggerIter note velocity track duration .fm st k).voicePool track
      = (st.voicePool track % 4 + (k - 1)) % 4 + 1 ∧
    callEvents note velocity track duration .fm st 1
      = callEvents note velocity track duration .fm st (4 + 1) := by
  refine ⟨callEvents_fm note velocity track duration st k hinit h0 h8 hk, ?_, ?_⟩
  · obtain ⟨_, hcur⟩ :=
      melodic_cursor_iter note velocity track duration st k hinit h0 h8
    rw [hcur, if_neg (by omega : ¬ (k = 0))]
  · have h1 := callEvents_fm note velocity track duration st 1 hinit h0 h8
      (by norm_num)
    have h5 := callEvents_fm note velocity track duration st (4 + 1) hinit h0 h8
      (by norm_num)
    have hv : (st.voicePool track % 4 + (1 - 1)) % 4
        = (st.voicePool track % 4 + (4 + 1 - 1)) % 4 := by omega
    rw [h1, h5, hv]

/-- Witness for C6_cyclic: the second call of a run on track 0 of the
initialized engine. -/
theorem C6_witness :
    callEvents 60 100 0 500 .fm (initEngine newEngine) 2
      = [{ track := 0,
           voiceIndex := ((initEngine newEngine).voicePool 0 % 4 + (2 - 1)) % 4,
           note := 60, velocity := 100, duration := 500 }] ∧
    (triggerIter 60 100 0 500 .fm (initEngine newEngine) 2).voicePool 0
      = ((initEngine newEngine).voicePool 0 % 4 + (2 - 1)) % 4 + 1 ∧
    callEvents 60 100 0 500 .fm (initEngine newEngine) 1
      = callEvents 60 100 0 500 .fm (initEngine newEngine) (4 + 1) :=
  C6_cyclic 60 100 0 500 (initEngine newEngine) 2 rfl (by norm_num)
    (by norm_num) (by norm_num)

/-- C8: for any control change within the guard range, if the computed hex
tag equals the active pattern the state is unchanged and the callback list is
empty; if it differs the state is updated and the callback fires exactly
once; and a repeat of the same value never fires the callback a second
time. -/
theorem C8_pattern_switch (st : MidiState) (cc value : Nat) (hcc : cc ≤ 255) :
    (hexId (value + 1) = st.currentPattern →
      handleControlChange st cc value = (st, [])) ∧
    (hexId (value + 1) ≠ st.currentPattern →
      handleControlChange st cc value
        = ({ currentPattern := hexId (value + 1) }, [hexId (value + 1)])) ∧
    (handleControlChange (handleControlChange st cc value).1 cc value).2 = [] := by
  by_cases h : hexId (value + 1) = st.currentPattern
  · refine ⟨fun _ => ?_, fun hn => absurd h hn, ?_⟩
    · simp [handleControlChange, PATTERN_CC_START, PATTERN_CC_END, hcc, h]
    · simp [handleControlChange, PATTERN_CC_START, PATTERN_CC_END, hcc, h]
  · refine ⟨fun he => absurd he h, fun _ => ?_, ?_⟩
    · simp [handleControlChange, PATTERN_CC_START, PATTERN_CC_END, hcc, h]
    · simp [handleControlChange, PATTERN_CC_START, PATTERN_CC_END, hcc, h]

/-- Witness for C8_pattern_switch: CC 3 with value 0 on the initial state,
where the computed tag 000x01 is already active. -/
theorem C8_witness :
    (hexId (0 + 1) = (MidiState.mk "000x01").currentPattern →
      handleControlChange ⟨"000x01"⟩ 3 0 = (⟨"000x01"⟩, [])) ∧
    (hexId (0 + 1) ≠ (MidiState.mk "000x01").currentPattern →
      handleControlChange ⟨"000x01"⟩ 3 0
        = ({ currentPattern := hexId (0 + 1) }, [hexId (0 + 1)])) ∧
    (handleControlChange (handleControlChange ⟨"000x01"⟩ 3 0).1 3 0).2 = [] :=
  C8_pattern_switch ⟨"000x01"⟩ 3 0 (by norm_num)
